import Mathlib

/-!
Verification of the World/Zone Streaming & Procedural Generation engine of
the RoguelikeBulletHell repository, as a shallow embedding in Lean 4.

Embedded sources:
 * `src/world_manager.py`  (`WorldManager`: biome classification, noise
   access, zone generation, the per-tick `update` load/evict loop, template
   and zone validation, zone-state application)
 * `src/zone_template_loader.py` (`ZoneTemplateLoader.get_random_template`
   and the catalog shape it maintains)
 * `src/zone_template.py` (`ZoneTemplate.apply_variations` and its helpers)
 * `src/zone_builder.py` (`ZoneBuilder.build_zone`)
 * `src/zone.py` (the `Zone` runtime object; this is the `Zone` class that
   `world_manager.py` actually uses - its `from zone import Zone` shadows
   the earlier `zone_types` import)
 * `src/config.py` (`ZONE_SIZE`, `BIOME_SETTINGS`)

Modelling conventions:
 * Python machine floats on these code paths only carry small decimal
   constants and exact arithmetic on them, so they are embedded as exact
   fractions (the kernel-computable type `Q` below).
 * Exceptions become `Except`/`Bool` success flags; an exception handler
   that logs and continues becomes the identity on the state.
 * The `noise.pnoise2` C extension is external to the repository; it is a
   parameter of type `NoiseFn`, where `none` stands for the sampler
   raising an internal exception.
 * Python's `random` module is external; a generator is modelled as the
   stream of uniform-[0,1) samples it would produce (`RState`).  The
   module-level generator used by `zone_template_loader` / `zone_template`
   and the `WorldManager.self.random` instance are separate streams.
 * The entity-component runtime is an external collaborator (spec §1); it
   is modelled at its interface boundary by `EMModel`, which says whether
   `create_entity` / `add_entity` calls succeed, plus a fresh-id counter.
 * Python dicts keyed by zone coordinate / string become association
   lists; key-set and lookup semantics are preserved.
-/

namespace RBH

/-! ## Exact real-number model

The Python floats on the verified code paths carry exact decimal
constants and products/sums of them, so they are modelled by exact
fractions.  `Q` is an unnormalized fraction `num / den`; every operation
is structurally recursive, so terms evaluate inside the kernel (Mathlib's
`ℚ` normalizes through `Nat.gcd`, which blocks kernel reduction).  All
fractions built by this development have positive denominators; the
`toRat` correctness lemmas below relate the operations to `ℚ` under that
hypothesis. -/

structure Q where
  num : Int
  den : Nat
deriving DecidableEq, Repr

instance : OfNat Q n := ⟨⟨Int.ofNat n, 1⟩⟩

def Q.ofInt (n : Int) : Q := ⟨n, 1⟩

/-- The fraction `a / b`. -/
def Q.mk' (a : Int) (b : Nat) : Q := ⟨a, b⟩

instance : Add Q := ⟨fun a b => ⟨a.num * b.den + b.num * a.den, a.den * b.den⟩⟩

instance : Sub Q := ⟨fun a b => ⟨a.num * b.den - b.num * a.den, a.den * b.den⟩⟩

instance : Mul Q := ⟨fun a b => ⟨a.num * b.num, a.den * b.den⟩⟩

instance : Neg Q := ⟨fun a => ⟨-a.num, a.den⟩⟩

instance : LT Q := ⟨fun a b => a.num * b.den < b.num * a.den⟩

instance : LE Q := ⟨fun a b => a.num * b.den ≤ b.num * a.den⟩

instance (a b : Q) : Decidable (a < b) :=
  inferInstanceAs (Decidable (a.num * b.den < b.num * a.den))

instance (a b : Q) : Decidable (a ≤ b) :=
  inferInstanceAs (Decidable (a.num * b.den ≤ b.num * a.den))

/-- `math.floor` of the fraction (exact for positive denominators). -/
def Q.floor (a : Q) : Int := Int.fdiv a.num a.den

/-- Python's floor division `a // b` of a float by a positive integer. -/
def Q.floorDivInt (a : Q) (b : Int) : Int := Int.fdiv a.num (b * a.den)

/-- Interpretation into `ℚ`. -/
def Q.toRat (a : Q) : ℚ := (a.num : ℚ) / (a.den : ℚ)

/-! ## Python value model -/

/-- A JSON-ish dynamic Python value stored in `properties` dicts and in the
persisted zone state. -/
inductive PropVal where
  | num (q : Q)
  | str (s : String)
  | bool (b : Bool)
deriving DecidableEq, Repr

/-- Association-list lookup, mirroring Python `dict.get` / `in`. -/
def lookupA {α : Type} (l : List (String × α)) (k : String) : Option α :=
  match l with
  | [] => none
  | kv :: rest => if kv.1 = k then some kv.2 else lookupA rest k

/-- Association-list insert-or-overwrite, mirroring Python `d[k] = v`. -/
def upsertA {α : Type} (l : List (String × α)) (k : String) (v : α) :
    List (String × α) :=
  match l with
  | [] => [(k, v)]
  | kv :: rest =>
      if kv.1 = k then (k, v) :: rest else kv :: upsertA rest k v

/-! ## Data model (`src/zone_types.py` dataclasses as instantiated at
runtime, plus the dynamic `variant` attribute that
`ZoneTemplate.apply_variations` sets on tiles) -/

structure ZoneTile where
  x : Int
  y : Int
  type : String
  is_platform : Bool := false
  properties : List (String × PropVal) := []
  /-- Dynamic attribute set by `apply_variations`; absent (`none`) on
  freshly constructed tiles. -/
  variant : Option String := none
deriving DecidableEq, Repr

structure ZoneDecoration where
  x : Int
  y : Int
  type : String
  properties : List (String × PropVal) := []
deriving DecidableEq, Repr

/-- Enemy spawn entry.  `patrol_points` holds the `(x, y)` tuples that
`_generate_patrol_points` appends at runtime. -/
structure ZoneEnemy where
  x : Int
  y : Int
  type : String
  patrol_points : List (Int × Int) := []
  properties : List (String × PropVal) := []
deriving DecidableEq, Repr

structure ZoneLoot where
  type : String
  x : Int
  y : Int
  rarity : String := "common"
  properties : List (String × PropVal) := []
deriving DecidableEq, Repr

structure ZoneTransition where
  type : String
  x : Int
  y : Int
  target : String
  properties : List (String × PropVal) := []
deriving DecidableEq, Repr

/-- `src/zone_template.py` dataclass `ZoneTemplate` (the one the loader and
the world manager use).  `zone_type` is `Optional[str]` defaulting to
`None`. -/
structure ZoneTemplate where
  name : String
  biome : String
  width : Int
  height : Int
  tiles : List ZoneTile
  decorations : List ZoneDecoration := []
  enemies : List ZoneEnemy := []
  loot : List ZoneLoot := []
  events : List String := []
  spawn_zone : Bool := false
  transition_type : Option String := none
  zone_type : Option String := none
  transitions : List ZoneTransition := []
deriving DecidableEq, Repr

/-- `src/zone.py` class `Zone`.  Its constructor copies `name`, `biome`,
`tiles`, ... straight from `template` (the attribute and the template field
are the same Python object and nothing on the verified paths rebinds
them), so those mirror attributes are exposed as accessors on `template`
below rather than duplicated fields.  `extra` is the bag of attributes
dynamically written by `setattr` in `WorldManager._apply_zone_state`. -/
structure Zone where
  id : String
  template : ZoneTemplate
  x : Int
  y : Int
  entities : List String := []
  state : List (String × PropVal) := []
  extra : List (String × PropVal) := []
deriving DecidableEq, Repr

def Zone.name (z : Zone) : String := z.template.name
def Zone.biome (z : Zone) : String := z.template.biome
def Zone.tiles (z : Zone) : List ZoneTile := z.template.tiles

/-! ## Config constants (`src/config.py`) -/

/-- `ZONE_SIZE = 320`. -/
def ZONE_SIZE : Int := 320

/-- The key set of `BIOME_SETTINGS`. -/
def biomeSettingsKeys : List String := ["forest", "tech", "lava", "ice"]

/-! ## External randomness (`random` module at its interface) -/

/-- A pseudo-random generator, modelled as the stream of uniform-[0,1)
samples it will produce.  Seeding the Python generator fixes this stream,
so "same seed" corresponds to "same stream". -/
abbrev RState : Type := List Q

/-- `random.random()`: take the next uniform sample (0 if the modelled
stream is exhausted). -/
def randDraw (s : RState) : Q × RState :=
  match s with
  | [] => (0, [])
  | q :: rest => (q, rest)

/-- `random.uniform(a, b)`. -/
def randUniform (a b : Q) (s : RState) : Q × RState :=
  (a + (randDraw s).1 * (b - a), (randDraw s).2)

/-- `random.randint(a, b)`: uniform integer in `[a, b]`. -/
def randInt (a b : Int) (s : RState) : Int × RState :=
  (a + ((randDraw s).1 * Q.ofInt (b - a + 1)).floor, (randDraw s).2)

/-- `random.choice(l)`: uniform element; `none` models the `IndexError`
raised on an empty sequence. -/
def randChoice {α : Type} (l : List α) (s : RState) : Option α × RState :=
  (l.get? ((randDraw s).1 * Q.ofInt l.length).floor.toNat, (randDraw s).2)

/-! ## NoiseField (`noise.pnoise2` boundary and
`WorldManager._get_noise_value`) -/

/-- The external `noise.pnoise2(x, y, base=seed)` sampler.  A result of
`none` models the C extension raising an exception internally. -/
def NoiseFn : Type := Q → Q → Nat → Option Q

/-- `WorldManager._get_noise_value(x, y, scale=0.1)`.  The Python body
calls `noise.pnoise2(x * scale, y * scale, base=self.seed % 1024)`; an
exception from the sampler is caught, logged, and re-raised as
`NoiseGenerationError` (modelled as `Except.error ()`). -/
def getNoiseValue (p : NoiseFn) (seed : Nat) (x y : Q)
    (scale : Q := Q.mk' 1 10) : Except Unit Q :=
  match p (x * scale) (y * scale) (seed % 1024) with
  | some v => .ok v
  | none => .error ()

/-! ## BiomeClassifier (`WorldManager._get_biome_type`) -/

/-- `self.biome_scale`, set to `0.1` in `__init__` and never reassigned. -/
def biomeScale : Q := Q.mk' 1 10

/-- The fixed ascending threshold map of `_get_biome_type`. -/
def biomeFromNoise (v : Q) : String :=
  if v < Q.mk' 1 4 then "forest"
  else if v < Q.mk' 1 2 then "tech"
  else if v < Q.mk' 3 4 then "lava"
  else "ice"

/-- `WorldManager._get_biome_type(x, y)`: sample the noise field at
`(x * biome_scale, y * biome_scale)` and map through the thresholds.
A `NoiseGenerationError` from `_get_noise_value` propagates. -/
def getBiomeType (p : NoiseFn) (seed : Nat) (x y : Int) :
    Except Unit String :=
  (getNoiseValue p seed (Q.ofInt x * biomeScale) (Q.ofInt y * biomeScale)).map
    biomeFromNoise

/-! ## Template catalog (`src/zone_template_loader.py`) -/

/-- The in-memory catalog `self.templates : biome -> zone_type -> [ZoneTemplate]`
built by `load_all_templates` (the file-system load itself is external
I/O; the verified operations are parameterised by the loaded catalog). -/
abbrev Catalog : Type := List (String × List (String × List ZoneTemplate))

/-- The bucket for a `(biome, zone_type)` pair (empty when either key is
missing). -/
def catalogBucket (c : Catalog) (biome zone_type : String) :
    List ZoneTemplate :=
  match lookupA c biome with
  | none => []
  | some m =>
    match lookupA m zone_type with
    | none => []
    | some bucket => bucket

/-- `ZoneTemplateLoader.get_random_template(biome, zone_type)`: raise
`ValueError` when the biome or the zone type key is missing, otherwise
`random.choice` on the bucket (which itself raises on an empty bucket).
The draw consumes the module-level generator. -/
def getRandomTemplate (c : Catalog) (biome zone_type : String)
    (g : RState) : Except String ZoneTemplate × RState :=
  match lookupA c biome with
  | none =>
      (.error "No template found", g)
  | some m =>
    match lookupA m zone_type with
    | none => (.error "No template found", g)
    | some bucket =>
      let ch := randChoice bucket g
      match ch.1 with
      | some t => (.ok t, ch.2)
      | none => (.error "IndexError", ch.2)

/-- `ZoneTemplateLoader.get_templates_by_biome(biome)`: concatenation of
all zone-type buckets of that biome, in catalog order. -/
def getTemplatesByBiome (c : Catalog) (biome : String) :
    List ZoneTemplate :=
  match lookupA c biome with
  | none => []
  | some m => (m.map Prod.snd).flatten

/-! ## Template validation (`WorldManager._validate_zone_template`) -/

/-- Truthiness of the `zone_type` attribute (`None` and `""` are falsy). -/
def zoneTypeTruthy (zt : Option String) : Bool :=
  match zt with
  | none => false
  | some s => s ≠ ""

/-- One tile's position check: `0 <= tile.x < width and 0 <= tile.y < height`. -/
def tileInBounds (w h : Int) (t : ZoneTile) : Bool :=
  0 ≤ t.x ∧ t.x < w ∧ 0 ≤ t.y ∧ t.y < h

/-- `WorldManager._validate_zone_template(template)`.  Checks, in source
order: `biome` truthy, `zone_type` truthy, `biome` a key of
`BIOME_SETTINGS`, `width > 0` and `height > 0`, and every **tile**
position inside bounds.  (The `hasattr` and `isinstance(..., list)`
guards are identically true for the embedded dataclass values, and no
other positional list is inspected.) -/
def validateZoneTemplate (t : ZoneTemplate) : Bool :=
  (t.biome ≠ "" : Bool) &&
  zoneTypeTruthy t.zone_type &&
  (t.biome ∈ biomeSettingsKeys : Bool) &&
  (0 < t.width && 0 < t.height) &&
  t.tiles.all (tileInBounds t.width t.height)

/-! ## Zone validation (`WorldManager._validate_zone` and
`_validate_zone_entities`) -/

/-- `WorldManager._validate_zone_entities(zone)`: `entities` must be a
list (always true here) with no duplicates (`len(set(e)) == len(e)`). -/
def validateZoneEntities (z : Zone) : Bool :=
  z.entities.eraseDups.length == z.entities.length

/-- `WorldManager._validate_zone(zone)`: id truthy, template present
(always for a built `Zone`), template valid, non-empty tile list,
positive dimensions, entity list valid. -/
def validateZone (z : Zone) : Bool :=
  (z.id ≠ "" : Bool) &&
  validateZoneTemplate z.template &&
  !z.template.tiles.isEmpty &&
  (0 < z.template.width && 0 < z.template.height) &&
  validateZoneEntities z

/-! ## Seeded variation (`ZoneTemplate.apply_variations` and helpers,
`src/zone_template.py`).

`apply_variations` builds a "copy" of the template in which the tile list
is rebuilt element-by-element through `_create_tile` (fresh tile objects),
while `decorations`, `enemies`, `loot`, `events` and `transitions` are
`list.copy()` **shallow** copies: new lists, same element objects.  The
variation loops then mutate those element objects in place
(`dec.properties = ...`, `enemy.patrol_points = ...`, `loot.type = ...`),
which is visible through the input template as well.  The embedding
therefore returns both the derived template and the input template as it
stands after the call (`original`). -/

/-- `random.choice` on a statically non-empty literal list (every call
site below passes one); `d` is the default for the out-of-range draws a
real generator never produces. -/
def choiceD {α : Type} (l : List α) (d : α) (s : RState) : α × RState :=
  let (o, s') := randChoice l s
  (o.getD d, s')

/-- State-threading map, mirroring an in-place `for` loop over a list. -/
def mapWithRand {α : Type} (f : α → RState → α × RState) :
    List α → RState → List α × RState
  | [], s => ([], s)
  | a :: rest, s =>
    let (a', s') := f a s
    let (rest', s'') := mapWithRand f rest s'
    (a' :: rest', s'')

/-- `ZoneTemplate._create_tile(tile_type, x, y)`. -/
def createTile (tile_type : String) (x y : Int) : ZoneTile :=
  let platform_types := ["platform_left", "platform_middle",
    "platform_right", "platform_glow", "platform_tech", "platform_crystal"]
  { type := tile_type, x := x, y := y,
    is_platform := tile_type ∈ platform_types }

/-- `ZoneTemplate._get_random_variant(tile_type)`. -/
def getRandomVariant (tile_type : String) (s : RState) : String × RState :=
  let variants :=
    if tile_type = "platform_middle" then ["normal", "damaged", "reinforced"]
    else if tile_type = "platform_glow" then ["blue", "green", "red"]
    else if tile_type = "tech_tower" then ["active", "inactive", "overloaded"]
    else ["normal"]
  choiceD variants "normal" s

/-- `ZoneTemplate._get_random_decoration_properties(dec_type)`.  The
Python dict literal evaluates **both** the `glow_node` and the
`cable_bundle` entries before `.get`, so four draws are consumed no
matter which decoration type is asked for. -/
def getRandomDecorationProperties (dec_type : String) (s : RState) :
    List (String × PropVal) × RState :=
  let (inten, s1) := randUniform (Q.mk' 1 2) 1 s
  let (color, s2) := choiceD ["blue", "green", "red"] "blue" s1
  let (damage, s3) := randUniform 0 (Q.mk' 3 10) s2
  let (sq, s4) := randDraw s3
  let props :=
    if dec_type = "glow_node" then
      [("intensity", PropVal.num inten), ("color", PropVal.str color)]
    else if dec_type = "cable_bundle" then
      [("damage", PropVal.num damage), ("sparks", PropVal.bool (sq < Q.mk' 1 5))]
    else []
  (props, s4)

/-- The `for _ in range(num_points)` body of `_generate_patrol_points`. -/
def patrolPointsLoop (x y : Int) : Nat → RState → List (Int × Int) × RState
  | 0, s => ([], s)
  | k + 1, s =>
    let (dx, sa) := randInt (-3) 3 s
    let (dy, sb) := randInt (-2) 2 sa
    let (rest, sc) := patrolPointsLoop x y k sb
    ((x + dx, y + dy) :: rest, sc)

/-- `ZoneTemplate._generate_patrol_points(x, y)`: 2 to 4 points near the
spawn. -/
def generatePatrolPoints (x y : Int) (s : RState) :
    List (Int × Int) × RState :=
  let (n, s1) := randInt 2 4 s
  patrolPointsLoop x y n.toNat s1

/-- `ZoneTemplate._get_random_loot_type(rarity)`. -/
def getRandomLootType (rarity : String) (s : RState) : String × RState :=
  let loot_types :=
    if rarity = "common" then ["health_small", "ammo_small", "scrap"]
    else if rarity = "uncommon" then ["health_medium", "ammo_medium", "component"]
    else if rarity = "rare" then ["health_large", "ammo_large", "artifact"]
    else if rarity = "legendary" then ["powerup", "key", "special"]
    else ["scrap"]
  choiceD loot_types "scrap" s

/-- Tile body of the first variation loop: 30% chance of a cosmetic
variant tag. -/
def varyTile (t : ZoneTile) (s : RState) : ZoneTile × RState :=
  let (q, s1) := randDraw s
  if q < Q.mk' 3 10 then
    let (v, s2) := getRandomVariant t.type s1
    ({ t with variant := some v }, s2)
  else (t, s1)

/-- Decoration body: 20% chance of randomized properties (replacing the
`properties` dict). -/
def varyDecoration (d : ZoneDecoration) (s : RState) :
    ZoneDecoration × RState :=
  let (q, s1) := randDraw s
  if q < Q.mk' 1 5 then
    let (props, s2) := getRandomDecorationProperties d.type s1
    ({ d with properties := props }, s2)
  else (d, s1)

/-- Enemy body: 40% chance of a generated patrol loop. -/
def varyEnemy (e : ZoneEnemy) (s : RState) : ZoneEnemy × RState :=
  let (q, s1) := randDraw s
  if q < Q.mk' 2 5 then
    let (pts, s2) := generatePatrolPoints e.x e.y s1
    ({ e with patrol_points := pts }, s2)
  else (e, s1)

/-- Loot body: 30% chance of a re-rolled concrete type within the rarity
bucket. -/
def varyLoot (l : ZoneLoot) (s : RState) : ZoneLoot × RState :=
  let (q, s1) := randDraw s
  if q < Q.mk' 3 10 then
    let (ty, s2) := getRandomLootType l.rarity s1
    ({ l with type := ty }, s2)
  else (l, s1)

/-- Result of `apply_variations`: the returned derived template, the
input template as observable after the call, and the generator state. -/
structure VariationResult where
  derived : ZoneTemplate
  original : ZoneTemplate
  rng : RState
deriving DecidableEq, Repr

/-- `ZoneTemplate.apply_variations(random_seed)`.  Seeding
(`random.seed(int(random_seed))`) fixes the module-level generator's
sample stream, which is the `s` parameter here; same seed means same
stream. -/
def applyVariations (t : ZoneTemplate) (s : RState) : VariationResult :=
  let freshTiles := t.tiles.map (fun tl => createTile tl.type tl.x tl.y)
  let r1 := mapWithRand varyTile freshTiles s
  let r2 := mapWithRand varyDecoration t.decorations r1.2
  let r3 := mapWithRand varyEnemy t.enemies r2.2
  let r4 := mapWithRand varyLoot t.loot r3.2
  { derived := { t with tiles := r1.1, decorations := r2.1,
                        enemies := r3.1, loot := r4.1 }
    original := { t with decorations := r2.1,
                         enemies := r3.1, loot := r4.1 }
    rng := r4.2 }

/-! ## Zone building (`ZoneBuilder.build_zone`, `src/zone_builder.py`) -/

/-- The external entity-component runtime at its interface boundary:
whether `create_entity` and `add_entity` calls succeed. -/
structure EMModel where
  createOk : Bool
  addOk : Bool
deriving DecidableEq, Repr

/-- The marker ECS entity `build_zone` registers for a zone: transform at
`(x*32, y*32)` (`self.zone_size = 32` in the builder), zone metadata, and
the background sprite key. -/
structure MarkerEntity where
  eid : Nat
  transform : Int × Int
  zone_type : Option String
  biome : String
  image_key : String
deriving DecidableEq, Repr

/-- `ZoneBuilder.build_zone(template, x, y, zone_id)`: effective id is
`zone_id or template.name`; constructs the `Zone`; creates the marker
entity, attaches transform/zone/sprite components, and registers it with
`entity_manager.add_entity`.  The whole body sits in one
`try/except ... raise`, so **any** failure - including a failing
`create_entity` or `add_entity` - is logged and re-raised to the caller.
Returns the result together with the next fresh entity id. -/
def buildZone (em : EMModel) (nextEid : Nat) (t : ZoneTemplate)
    (x y : Int) (zone_id : Option String) :
    Except Unit (Zone × MarkerEntity) × Nat :=
  let zid := match zone_id with
    | none => t.name
    | some s => if s = "" then t.name else s
  let z : Zone := { id := zid, template := t, x := x, y := y }
  if !em.createOk then (.error (), nextEid)
  else if !em.addOk then (.error (), nextEid + 1)
  else
    (.ok (z, { eid := nextEid, transform := (x * 32, y * 32),
               zone_type := t.zone_type, biome := t.biome,
               image_key := "background_" ++ t.biome }), nextEid + 1)

/-! ## WorldManager state (`src/world_manager.py`) -/

/-- A value of the `self.zones` table.  `_generate_zone` stores the built
`Zone`, but `_spawn_biome_particles` then **overwrites** the same key with
the temporary EFFECT entity it creates for particle emission (line 277 of
`world_manager.py`), so a table slot can hold either. -/
inductive ZoneVal where
  | zone (z : Zone)
  | effect (eid : Nat) (zone_type : String) (position : Int × Int)
deriving DecidableEq, Repr

/-- An element of the `self.active_zones` Python set.  `update` stores
coordinate tuples, but `_initialize_starting_zone` adds the starting
`Zone` object itself (`self.active_zones.add(start_zone)`), so both kinds
occur. -/
inductive ActiveEntry where
  | coord (c : Int × Int)
  | zoneObj (z : Zone)
deriving DecidableEq, Repr

/-- A persisted zone-state record (`zone_states.json` entry): an optional
`entities` list and a `properties` dict applied via `setattr`. -/
structure ZoneStateRec where
  entities : Option (List String) := none
  properties : List (String × PropVal) := []
deriving DecidableEq, Repr

/-- Lookup in the coordinate-keyed `self.zones` dict. -/
def lookupC {β : Type} (l : List ((Int × Int) × β)) (k : Int × Int) :
    Option β :=
  match l with
  | [] => none
  | kv :: rest => if kv.1 = k then some kv.2 else lookupC rest k

/-- Insert-or-overwrite in the coordinate-keyed `self.zones` dict. -/
def insertC {β : Type} (l : List ((Int × Int) × β)) (k : Int × Int)
    (v : β) : List ((Int × Int) × β) :=
  match l with
  | [] => [(k, v)]
  | kv :: rest =>
      if kv.1 = k then (k, v) :: rest else kv :: insertC rest k v

/-- The mutable `WorldManager` state relevant to streaming, together with
the template-loader catalog it owns a reference to and the two external
random streams (`self.random`, seeded with `self.seed`, is `wrng`; the
module-level `random` used by the loader is `grng`). -/
structure WMState where
  seed : Nat
  zones : List ((Int × Int) × ZoneVal)
  active_zones : Finset ActiveEntry
  zone_states : List (String × ZoneStateRec)
  catalog : Catalog
  wrng : RState
  grng : RState
  hasParticles : Bool
  nextEid : Nat
deriving DecidableEq

/-- Key set of the resident Zone table. -/
def zoneKeys (s : WMState) : Finset (Int × Int) :=
  (s.zones.map Prod.fst).toFinset

/-- `self.max_load_distance = 2`. -/
def max_load_distance : Nat := 2

/-- `self.initial_load_distance = 1`. -/
def initial_load_distance : Nat := 1

/-- The synthetic id `f"zone_{x}_{y}"`. -/
def zoneIdStr (x y : Int) : String :=
  "zone_" ++ toString x ++ "_" ++ toString y

/-- `WorldManager._get_zone_type(x, y)`. -/
def getZoneType (x y : Int) : String :=
  if x = 0 ∧ y = 0 then "start"
  else if x.natAbs ≤ 1 ∧ y.natAbs ≤ 1 then "early_game"
  else "boss_zone"

/-- `WorldManager._select_zone_template(biome)`: all templates of the
biome (every zone type), then `self.random.choice`; `None` when the biome
has no templates at all. -/
def selectZoneTemplate (s : WMState) (biome : String) :
    Option ZoneTemplate × RState :=
  let ts := getTemplatesByBiome s.catalog biome
  if ts.isEmpty then (none, s.wrng)
  else randChoice ts s.wrng

/-- `WorldManager._apply_zone_state(zone, state)`: copy `state['entities']`
over `zone.entities` when present, then `setattr(zone, key, value)` for
each `state['properties']` item.  The dynamically-set attributes land in
the zone's `extra` bag.  (Its `try/except` only logs; nothing on this
path raises.) -/
def applyZoneState (z : Zone) (st : ZoneStateRec) : Zone :=
  let z1 := match st.entities with
    | some es => { z with entities := es }
    | none => z
  { z1 with
    extra := st.properties.foldl (fun acc kv => upsertA acc kv.1 kv.2) z1.extra }

/-- `WorldManager._spawn_biome_particles(biome, x, y)`: skipped when the
particle manager is absent; otherwise creates a temporary EFFECT entity,
stores it over `self.zones[(x, y)]`, and emits particles (external).  All
its exceptions are caught internally; a failing `create_entity` aborts it
before the table is touched. -/
def spawnBiomeParticles (em : EMModel) (s : WMState) (biome : String)
    (x y : Int) : WMState :=
  if !s.hasParticles then s
  else if !em.createOk then s
  else
    { s with
      zones := insertC s.zones (x, y)
        (ZoneVal.effect s.nextEid biome (x * ZONE_SIZE, y * ZONE_SIZE)),
      nextEid := s.nextEid + 1 }

/-- `WorldManager._generate_zone(x, y)`.  Any failure (noise error,
missing template, template validation, build error, zone validation) is
re-raised as `ZoneGenerationError`: the returned flag is `false` and the
state keeps whatever was consumed before the failure (random draws,
entity ids).  On success the zone is stored, saved state applied, and
biome particles spawned. -/
def generateZone (p : NoiseFn) (em : EMModel) (s : WMState) (x y : Int) :
    Bool × WMState :=
  let zone_id := zoneIdStr x y
  if (lookupC s.zones (x, y)).isSome then (true, s)
  else
    match getBiomeType p s.seed x y with
    | .error _ => (false, s)
    | .ok biome =>
      -- `zone_type := getZoneType x y` is computed and logged;
      -- `_select_zone_template` does not consult it.
      let sel := selectZoneTemplate s biome
      let s1 := { s with wrng := sel.2 }
      match sel.1 with
      | none => (false, s1)
      | some t =>
        if !validateZoneTemplate t then (false, s1)
        else
          let b := buildZone em s1.nextEid t x y (some zone_id)
          let s2 := { s1 with nextEid := b.2 }
          match b.1 with
          | .error _ => (false, s2)
          | .ok zm =>
            if !validateZone zm.1 then (false, s2)
            else
              let z1 := match lookupA s2.zone_states zone_id with
                | some st => applyZoneState zm.1 st
                | none => zm.1
              let s3 :=
                { s2 with zones := insertC s2.zones (x, y) (ZoneVal.zone z1) }
              (true, spawnBiomeParticles em s3 biome x y)

/-- The per-coordinate generation loop shared by `update` and
`_generate_initial_zones`: attempt each missing coordinate in order; the
first `ZoneGenerationError` escapes the loop (there is no per-coordinate
handler), abandoning the remaining coordinates. -/
def genLoop (p : NoiseFn) (em : EMModel) :
    List (Int × Int) → WMState → Bool × WMState
  | [], s => (true, s)
  | c :: rest, s =>
    if (lookupC s.zones c).isSome then genLoop p em rest s
    else
      let g := generateZone p em s c.1 c.2
      if g.1 then genLoop p em rest g.2 else g

/-- Ascending integer range of length `n` starting at `a`
(Python `range(a, a + n)`). -/
def intRange (a : Int) : Nat → List Int
  | 0 => []
  | n + 1 => a :: intRange (a + 1) n

/-- The nested `for x in range(cx-r, cx+r+1): for y in range(cy-r, cy+r+1)`
iteration order. -/
def squareList (cx cy : Int) (r : Nat) : List (Int × Int) :=
  (intRange (cx - (r : Int)) (2 * r + 1)).flatMap
    (fun x => (intRange (cy - (r : Int)) (2 * r + 1)).map (fun y => (x, y)))

/-- The `desired` coordinate square of a tick: the camera position is
floor-divided by `self.zone_size * 32` (= `ZONE_SIZE * 32` = 10240, with
the comment `# 32 is tile size`), and the `max_load_distance`-square
around the resulting focal coordinate is walked. -/
def desiredCoords (camera_x camera_y : Q) : List (Int × Int) :=
  squareList (camera_x.floorDivInt (ZONE_SIZE * 32))
    (camera_y.floorDivInt (ZONE_SIZE * 32)) max_load_distance

/-- `WorldManager.update(camera_x, camera_y)` - the tick.  Computes the
`desired` square, generates the missing coordinates in it, then replaces
`active_zones` with the square and deletes the table entries outside it.
The whole body is inside one `try/except` that only logs: when a
generation failure escapes the loop, the active-set replacement and the
unload step never run for that tick.  The returned flag records whether
the tick ran to completion. -/
def updateWM (p : NoiseFn) (em : EMModel) (s : WMState)
    (camera_x camera_y : Q) : Bool × WMState :=
  let desired := desiredCoords camera_x camera_y
  let g := genLoop p em desired s
  if g.1 then
    (true,
      { g.2 with
        active_zones := (desired.map ActiveEntry.coord).toFinset,
        zones := g.2.zones.filter (fun kv => (kv.1 ∈ desired : Bool)) })
  else (false, g.2)

/-- `WorldManager.__init__` (streaming-relevant part): seed 42, empty
tables, externally loaded zone states and template catalog, then
`_initialize_starting_zone` (a `forest`/`start` template fetched through
the loader - whose `ValueError` would abort construction - built at
(0, 0) with id `"start_zone"`, stored, and the Zone **object** added to
`active_zones`), then `_generate_initial_zones` over the
`initial_load_distance` square, whose failures also abort construction
(`_generate_initial_zones` has no handler). -/
def initWM (p : NoiseFn) (em : EMModel) (catalog : Catalog)
    (loadedStates : List (String × ZoneStateRec)) (grng wrng : RState)
    (hasParticles : Bool) : Except Unit WMState :=
  let s0 : WMState :=
    { seed := 42, zones := [], active_zones := ∅,
      zone_states := loadedStates, catalog := catalog, wrng := wrng,
      grng := grng, hasParticles := hasParticles, nextEid := 0 }
  let gr := getRandomTemplate catalog "forest" "start" s0.grng
  match gr.1 with
  | .error _ => .error ()
  | .ok t =>
    let s1 := { s0 with grng := gr.2 }
    let b := buildZone em s1.nextEid t 0 0 (some "start_zone")
    match b.1 with
    | .error _ => .error ()
    | .ok zm =>
      let s2 :=
        { s1 with
          nextEid := b.2,
          zones := insertC s1.zones (0, 0) (ZoneVal.zone zm.1),
          active_zones := insert (ActiveEntry.zoneObj zm.1) s1.active_zones }
      let g := genLoop p em (squareList 0 0 initial_load_distance) s2
      if g.1 then .ok g.2 else .error ()

/-! ## Concrete fixtures used by witnesses and counterexamples -/

instance {ε α : Type} [DecidableEq ε] [DecidableEq α] :
    DecidableEq (Except ε α) := fun a b =>
  match a, b with
  | .ok x, .ok y =>
      if h : x = y then .isTrue (by rw [h])
      else .isFalse (fun hc => h (Except.ok.inj hc))
  | .error x, .error y =>
      if h : x = y then .isTrue (by rw [h])
      else .isFalse (fun hc => h (Except.error.inj hc))
  | .ok _, .error _ => .isFalse (fun hc => Except.noConfusion hc)
  | .error _, .ok _ => .isFalse (fun hc => Except.noConfusion hc)

/-- An entity manager whose calls all succeed. -/
def cEMok : EMModel := { createOk := true, addOk := true }

/-- An entity manager whose `add_entity` registration call fails. -/
def cEMnoAdd : EMModel := { createOk := true, addOk := false }

/-- A noise sampler that always returns 0 (everything classifies as
`forest`). -/
def pZero : NoiseFn := fun _ _ _ => some 0

/-- A noise sampler that always faults internally. -/
def pFail : NoiseFn := fun _ _ _ => none

/-- Noise sampler: value 0.8 (an `ice` zone coordinate) as soon as the
(scaled) x argument reaches 1/50 - i.e. for zone x-coordinates >= 2 - and
0 (`forest`) below.  The 3x3 start square is all forest, so `__init__`
succeeds, but the radius-2 tick square contains ice coordinates. -/
def pC1 : NoiseFn := fun a _ _ =>
  if Q.mk' 1 50 ≤ a then some (Q.mk' 8 10) else some 0

/-- Noise sampler: `ice` for zone x-coordinates <= -2 (the very first
coordinate the tick loop visits), `forest` elsewhere. -/
def pC2 : NoiseFn := fun a _ _ =>
  if a ≤ Q.mk' (-1) 50 then some (Q.mk' 8 10) else some 0

/-- A valid `forest`/`start` catalog template. -/
def cStartT : ZoneTemplate :=
  { name := "t_start", biome := "forest", zone_type := some "start",
    width := 3, height := 3,
    tiles := [{ x := 0, y := 0, type := "platform_middle" }] }

/-- A valid `forest`/`normal` catalog template. -/
def cNormT : ZoneTemplate :=
  { name := "t_norm", biome := "forest", zone_type := some "normal",
    width := 3, height := 3,
    tiles := [{ x := 1, y := 1, type := "ground" }] }

/-- A catalog with forest templates only. -/
def cCatForest : Catalog :=
  [("forest", [("start", [cStartT]), ("normal", [cNormT])])]

/-- Fallback state for extracting `initWM` results. -/
def emptyWM : WMState :=
  { seed := 42, zones := [], active_zones := ∅, zone_states := [],
    catalog := [], wrng := [], grng := [], hasParticles := false,
    nextEid := 0 }

/-- The initialized world of the all-forest scenario. -/
def cInitForest : WMState :=
  (initWM pZero cEMok cCatForest [] (List.replicate 2 0)
    (List.replicate 40 0) false).toOption.getD emptyWM

/-- The initialized world of the `pC1` scenario. -/
def c1Init : WMState :=
  (initWM pC1 cEMok cCatForest [] (List.replicate 2 0)
    (List.replicate 40 0) false).toOption.getD emptyWM

/-- The initialized world of the `pC2` scenario. -/
def c2Init : WMState :=
  (initWM pC2 cEMok cCatForest [] (List.replicate 2 0)
    (List.replicate 40 0) false).toOption.getD emptyWM

/-- Template whose single tile sits at `(width-1, height-1)`. -/
def cBoundaryOkT : ZoneTemplate :=
  { name := "edge_ok", biome := "forest", zone_type := some "normal",
    width := 4, height := 5,
    tiles := [{ x := 3, y := 4, type := "ground" }] }

/-- Template whose single tile sits at `(width, 0)`. -/
def cBoundaryBadT : ZoneTemplate :=
  { name := "edge_bad", biome := "forest", zone_type := some "normal",
    width := 4, height := 5,
    tiles := [{ x := 4, y := 0, type := "ground" }] }

/-- Template with in-bounds tiles but a decoration at `(width, 0)`,
outside `[0,width) x [0,height)`. -/
def cBadDecT : ZoneTemplate :=
  { name := "bad_dec", biome := "forest", zone_type := some "normal",
    width := 3, height := 3,
    tiles := [{ x := 0, y := 0, type := "ground" }],
    decorations := [{ x := 3, y := 0, type := "crystal" }] }

/-- Template with one enemy spawn, used to exhibit the in-place mutation
of `apply_variations`. -/
def cVarT : ZoneTemplate :=
  { name := "vt", biome := "forest", width := 5, height := 5,
    tiles := [],
    enemies := [{ x := 0, y := 0, type := "basic" }] }

/-! ## Structural lemmas about the zone table and the generation loop -/

theorem lookupC_isSome_iff {β : Type} (l : List ((Int × Int) × β))
    (k : Int × Int) : (lookupC l k).isSome ↔ k ∈ l.map Prod.fst := by
  induction l with
  | nil => simp [lookupC]
  | cons kv rest ih =>
      by_cases h : kv.1 = k
      · simp [lookupC, h]
      · simp only [lookupC, if_neg h, ih, List.map_cons, List.mem_cons]
        exact ⟨fun hm => Or.inr hm,
          fun hm => hm.resolve_left (fun he => h he.symm)⟩

theorem mem_keys_insertC {β : Type} (l : List ((Int × Int) × β))
    (k c : Int × Int) (v : β) :
    c ∈ (insertC l k v).map Prod.fst ↔ c = k ∨ c ∈ l.map Prod.fst := by
  induction l with
  | nil => simp [insertC, eq_comm]
  | cons kv rest ih =>
      by_cases h : kv.1 = k
      · subst h
        simp [insertC, eq_comm]
      · simp only [insertC, if_neg h, List.map_cons, List.mem_cons, ih]
        tauto

theorem spawnBiomeParticles_fields (em : EMModel) (s : WMState)
    (biome : String) (x y : Int) :
    (spawnBiomeParticles em s biome x y).seed = s.seed ∧
    (spawnBiomeParticles em s biome x y).zone_states = s.zone_states ∧
    (spawnBiomeParticles em s biome x y).active_zones = s.active_zones ∧
    (spawnBiomeParticles em s biome x y).catalog = s.catalog := by
  unfold spawnBiomeParticles
  split
  · exact ⟨rfl, rfl, rfl, rfl⟩
  · split <;> exact ⟨rfl, rfl, rfl, rfl⟩

theorem spawnBiomeParticles_keys_mono (em : EMModel) (s : WMState)
    (biome : String) (x y : Int) (c : Int × Int)
    (h : c ∈ s.zones.map Prod.fst) :
    c ∈ (spawnBiomeParticles em s biome x y).zones.map Prod.fst := by
  unfold spawnBiomeParticles
  split
  · exact h
  · split
    · exact h
    · exact (mem_keys_insertC _ _ _ _).mpr (Or.inr h)

theorem generateZone_fields (p : NoiseFn) (em : EMModel) (s : WMState)
    (x y : Int) :
    ((generateZone p em s x y).2).seed = s.seed ∧
    ((generateZone p em s x y).2).zone_states = s.zone_states ∧
    ((generateZone p em s x y).2).active_zones = s.active_zones ∧
    ((generateZone p em s x y).2).catalog = s.catalog := by
  unfold generateZone
  dsimp only
  split
  · exact ⟨rfl, rfl, rfl, rfl⟩
  · split
    · exact ⟨rfl, rfl, rfl, rfl⟩
    · split
      · exact ⟨rfl, rfl, rfl, rfl⟩
      · split
        · exact ⟨rfl, rfl, rfl, rfl⟩
        · split
          · exact ⟨rfl, rfl, rfl, rfl⟩
          · split
            · exact ⟨rfl, rfl, rfl, rfl⟩
            · exact spawnBiomeParticles_fields em _ _ x y

/-- `_generate_zone` either fails leaving the table untouched, or succeeds
with its coordinate present and every pre-existing key preserved. -/
theorem generateZone_cases (p : NoiseFn) (em : EMModel) (s : WMState)
    (x y : Int) :
    ((generateZone p em s x y).1 = false ∧
      ((generateZone p em s x y).2).zones = s.zones) ∨
    ((generateZone p em s x y).1 = true ∧
      (x, y) ∈ ((generateZone p em s x y).2).zones.map Prod.fst ∧
      ∀ c ∈ s.zones.map Prod.fst,
        c ∈ ((generateZone p em s x y).2).zones.map Prod.fst) := by
  unfold generateZone
  dsimp only
  split
  · next hskip =>
      exact Or.inr ⟨rfl, (lookupC_isSome_iff _ _).mp hskip, fun c hc => hc⟩
  · split
    · exact Or.inl ⟨rfl, rfl⟩
    · split
      · exact Or.inl ⟨rfl, rfl⟩
      · split
        · exact Or.inl ⟨rfl, rfl⟩
        · split
          · exact Or.inl ⟨rfl, rfl⟩
          · split
            · exact Or.inl ⟨rfl, rfl⟩
            · refine Or.inr ⟨rfl, ?_, fun c hc => ?_⟩
              · exact spawnBiomeParticles_keys_mono em _ _ x y _
                  ((mem_keys_insertC _ _ _ _).mpr (Or.inl rfl))
              · exact spawnBiomeParticles_keys_mono em _ _ x y _
                  ((mem_keys_insertC _ _ _ _).mpr (Or.inr hc))

theorem genLoop_fields (p : NoiseFn) (em : EMModel)
    (coords : List (Int × Int)) (s : WMState) :
    ((genLoop p em coords s).2).seed = s.seed ∧
    ((genLoop p em coords s).2).zone_states = s.zone_states ∧
    ((genLoop p em coords s).2).active_zones = s.active_zones ∧
    ((genLoop p em coords s).2).catalog = s.catalog := by
  induction coords generalizing s with
  | nil => exact ⟨rfl, rfl, rfl, rfl⟩
  | cons c rest ih =>
      unfold genLoop
      dsimp only
      split
      · exact ih s
      · split
        · have h1 := generateZone_fields p em s c.1 c.2
          have h2 := ih (generateZone p em s c.1 c.2).2
          exact ⟨h2.1.trans h1.1, h2.2.1.trans h1.2.1,
            h2.2.2.1.trans h1.2.2.1, h2.2.2.2.trans h1.2.2.2⟩
        · exact generateZone_fields p em s c.1 c.2

theorem genLoop_keys_mono (p : NoiseFn) (em : EMModel)
    (coords : List (Int × Int)) (s : WMState) (c : Int × Int)
    (h : c ∈ s.zones.map Prod.fst) :
    c ∈ ((genLoop p em coords s).2).zones.map Prod.fst := by
  induction coords generalizing s with
  | nil => exact h
  | cons c0 rest ih =>
      unfold genLoop
      dsimp only
      split
      · exact ih s h
      · have hmono : c ∈ ((generateZone p em s c0.1 c0.2).2).zones.map Prod.fst := by
          rcases generateZone_cases p em s c0.1 c0.2 with ⟨_, hz⟩ | ⟨_, _, hm⟩
          · rw [hz]; exact h
          · exact hm c h
        split
        · exact ih _ hmono
        · exact hmono

theorem genLoop_success_keys (p : NoiseFn) (em : EMModel)
    (coords : List (Int × Int)) (s : WMState)
    (h : (genLoop p em coords s).1 = true) :
    ∀ c ∈ coords, c ∈ ((genLoop p em coords s).2).zones.map Prod.fst := by
  induction coords generalizing s with
  | nil => intro c hc; cases hc
  | cons c0 rest ih =>
      intro c hc
      rcases List.mem_cons.mp hc with hc0 | hcr
      · subst hc0
        revert h
        unfold genLoop
        dsimp only
        split
        · next hskip =>
            intro h
            exact genLoop_keys_mono p em rest s c
              ((lookupC_isSome_iff _ _).mp hskip)
        · split
          · next hg =>
              intro h
              rcases generateZone_cases p em s c.1 c.2 with ⟨hf, _⟩ | ⟨_, hk, _⟩
              · rw [hf] at hg; cases hg
              · exact genLoop_keys_mono p em rest _ c hk
          · next hg =>
              intro h
              rw [Bool.not_eq_true] at hg
              rw [hg] at h
              cases h
      · revert h
        unfold genLoop
        dsimp only
        split
        · exact fun h => ih s h c hcr
        · split
          · exact fun h => ih _ h c hcr
          · next hg =>
              intro h
              rw [Bool.not_eq_true] at hg
              rw [hg] at h
              cases h

theorem mem_intRange (a x : Int) (n : Nat) :
    x ∈ intRange a n ↔ a ≤ x ∧ x < a + n := by
  induction n generalizing a with
  | zero => simp [intRange]
  | succ n ih =>
      simp only [intRange, List.mem_cons, ih (a + 1)]
      omega

theorem mem_squareList (cx cy : Int) (r : Nat) (c : Int × Int) :
    c ∈ squareList cx cy r ↔
      cx - r ≤ c.1 ∧ c.1 ≤ cx + r ∧ cy - r ≤ c.2 ∧ c.2 ≤ cy + r := by
  obtain ⟨a, b⟩ := c
  unfold squareList
  simp only [List.mem_flatMap, List.mem_map, mem_intRange, Prod.mk.injEq]
  constructor
  · rintro ⟨x, hx, y, hy, rfl, rfl⟩
    omega
  · rintro ⟨h1, h2, h3, h4⟩
    exact ⟨a, ⟨h1, by omega⟩, b, ⟨h3, by omega⟩, rfl, rfl⟩


/-- A tick that runs to completion replaces the active set with the
desired square and cuts the Zone table down to exactly that square. -/
theorem updateWM_success_parts (p : NoiseFn) (em : EMModel) (s : WMState)
    (cx cy : Q) (h : (updateWM p em s cx cy).1 = true) :
    ((updateWM p em s cx cy).2).active_zones =
      ((desiredCoords cx cy).map ActiveEntry.coord).toFinset ∧
    zoneKeys (updateWM p em s cx cy).2 = (desiredCoords cx cy).toFinset := by
  revert h
  unfold updateWM
  dsimp only
  split
  · next hg =>
      intro _
      refine ⟨rfl, ?_⟩
      ext c
      simp only [zoneKeys, List.mem_toFinset, List.mem_map]
      constructor
      · rintro ⟨kv, hkv, rfl⟩
        have hpred := (List.mem_filter.mp hkv).2
        simpa using hpred
      · intro hc
        have hk := genLoop_success_keys p em _ s hg c hc
        rcases List.mem_map.mp hk with ⟨kv, hkv, hfst⟩
        exact ⟨kv, List.mem_filter.mpr ⟨hkv, by simpa [hfst] using hc⟩, hfst⟩
  · next hg =>
      intro h
      cases h

/-- The tick never writes the persisted-state dict and never touches the
seed or the catalog. -/
theorem updateWM_fields (p : NoiseFn) (em : EMModel) (s : WMState)
    (cx cy : Q) :
    ((updateWM p em s cx cy).2).zone_states = s.zone_states ∧
    ((updateWM p em s cx cy).2).seed = s.seed ∧
    ((updateWM p em s cx cy).2).catalog = s.catalog := by
  unfold updateWM
  dsimp only
  split
  · have hfld := genLoop_fields p em (desiredCoords cx cy) s
    exact ⟨hfld.2.1, hfld.1, hfld.2.2.2⟩
  · have hfld := genLoop_fields p em (desiredCoords cx cy) s
    exact ⟨hfld.2.1, hfld.1, hfld.2.2.2⟩

/-! ## Claim C1 - ActiveSet vs. Zone-table keys -/

/-- C1 (amended): after every tick **that runs to completion**, the
active set is exactly the coordinate image of the Zone-table key set.
The original claim - for *every* tick from the initialized state - fails
because a tick aborted by a generation failure (caught by `update`'s
blanket handler) leaves `active_zones` stale while the table has already
grown; see the counterexample. -/
theorem C1_theorem (p : NoiseFn) (em : EMModel) (s : WMState) (cx cy : Q)
    (h : (updateWM p em s cx cy).1 = true) :
    ((updateWM p em s cx cy).2).active_zones =
      (zoneKeys (updateWM p em s cx cy).2).image ActiveEntry.coord := by
  obtain ⟨ha, hk⟩ := updateWM_success_parts p em s cx cy h
  rw [ha, hk]
  ext b
  simp [List.mem_map, Finset.mem_image]

/-- C1 counterexample: from the initialized `pC1` world (all-forest 3x3
start, ice - hence template-less - coordinates at x >= 2), the first tick
at camera (0, 0) hits a generation failure at (2, -2), aborts, and ends
with `ActiveSet` (still the `__init__`-time singleton holding the start
Zone object) different from the key set of the grown Zone table. -/
theorem C1_counterexample :
    initWM pC1 cEMok cCatForest [] (List.replicate 2 0)
        (List.replicate 40 0) false = .ok c1Init ∧
    (updateWM pC1 cEMok c1Init 0 0).2.active_zones ≠
      (zoneKeys (updateWM pC1 cEMok c1Init 0 0).2).image ActiveEntry.coord := by
  exact ⟨by decide, by decide⟩

/-- C1 witness: a completed tick of the all-forest world satisfies the
amended invariant. -/
theorem C1_witness :
    (updateWM pZero cEMok cInitForest 0 0).2.active_zones =
      (zoneKeys (updateWM pZero cEMok cInitForest 0 0).2).image
        ActiveEntry.coord :=
  C1_theorem pZero cEMok cInitForest 0 0 (by decide)

/-! ## Claim C2 - per-coordinate failure isolation -/

/-- C2 (amended): a generation failure inside a tick is caught only by
`update`'s outer handler, so it aborts the remainder of that tick: the
active set and the persisted-state dict are left untouched and every
already-resident coordinate stays resident (coordinates later in the
iteration order are simply not processed).  No coordinate is ever
blacklisted: any tick that runs to completion makes every desired
coordinate resident, so a previously failed coordinate is retried by the
next tick that covers it. -/
theorem C2_theorem (p : NoiseFn) (em : EMModel) (s : WMState) (cx cy : Q) :
    ((updateWM p em s cx cy).1 = false →
      ((updateWM p em s cx cy).2).active_zones = s.active_zones ∧
      ((updateWM p em s cx cy).2).zone_states = s.zone_states ∧
      ∀ c ∈ zoneKeys s, c ∈ zoneKeys (updateWM p em s cx cy).2) ∧
    ((updateWM p em s cx cy).1 = true →
      ∀ c ∈ desiredCoords cx cy, c ∈ zoneKeys (updateWM p em s cx cy).2) := by
  constructor
  · intro hf
    revert hf
    unfold updateWM
    dsimp only
    split
    · intro hf
      cases hf
    · intro _
      have hfld := genLoop_fields p em (desiredCoords cx cy) s
      refine ⟨hfld.2.2.1, hfld.2.1, ?_⟩
      intro c hc
      simp only [zoneKeys, List.mem_toFinset] at hc ⊢
      exact genLoop_keys_mono p em _ s c hc
  · intro ht c hc
    rw [(updateWM_success_parts p em s cx cy ht).2]
    exact List.mem_toFinset.mpr hc

/-- C2 counterexample: in the `pC2` world the very first coordinate of
the tick square, (-2, -2), classifies as `ice` and fails (no template);
the tick aborts, so (0, -2) - which would generate successfully on the
same state - is left unprocessed and not resident after the tick,
refuting "the processing of every other coordinate in the same tick still
runs to completion". -/
theorem C2_counterexample :
    initWM pC2 cEMok cCatForest [] (List.replicate 2 0)
        (List.replicate 40 0) false = .ok c2Init ∧
    (updateWM pC2 cEMok c2Init 0 0).1 = false ∧
    (generateZone pC2 cEMok c2Init 0 (-2)).1 = true ∧
    (0, -2) ∈ desiredCoords 0 0 ∧
    (0, -2) ∉ zoneKeys (updateWM pC2 cEMok c2Init 0 0).2 := by
  exact ⟨by decide, by decide, by decide, by decide, by decide⟩

/-- C2 witness: the aborted tick leaves the active set untouched, and a
completed tick makes a desired coordinate resident. -/
theorem C2_witness :
    (updateWM pC2 cEMok c2Init 0 0).2.active_zones = c2Init.active_zones ∧
    (2, 2) ∈ zoneKeys (updateWM pZero cEMok cInitForest 0 0).2 :=
  ⟨((C2_theorem pC2 cEMok c2Init 0 0).1 (by decide)).1,
   (C2_theorem pZero cEMok cInitForest 0 0).2 (by decide) (2, 2) (by decide)⟩

/-! ## Claim C3 - eviction and persistence -/

/-- C3 (amended): a tick **never** writes the persisted-zone-state store -
evicted coordinates are simply deleted from the Zone table (after a
completed tick no coordinate outside the desired square remains
resident), and their `entities`/`state` are discarded rather than
serialized.  Re-entering restores only whatever the store already
contained from startup, so the round-trip of the original claim fails. -/
theorem C3_theorem (p : NoiseFn) (em : EMModel) (s : WMState) (cx cy : Q) :
    ((updateWM p em s cx cy).2).zone_states = s.zone_states ∧
    ((updateWM p em s cx cy).1 = true →
      ∀ c ∈ zoneKeys s, c ∉ desiredCoords cx cy →
        c ∉ zoneKeys (updateWM p em s cx cy).2) := by
  refine ⟨(updateWM_fields p em s cx cy).1, ?_⟩
  intro ht c _ hcd
  rw [(updateWM_success_parts p em s cx cy ht).2]
  exact fun hmem => hcd (List.mem_toFinset.mp hmem)

/-- C3 counterexample: (0, 0) is resident in the initialized all-forest
world; a completed tick at camera x = 102400 (focal zone x = 10) evicts
it, yet the persisted store still has no `"zone_0_0"` entry afterwards -
nothing was serialized before removal. -/
theorem C3_counterexample :
    (0, 0) ∈ zoneKeys cInitForest ∧
    (0, 0) ∉ desiredCoords (Q.ofInt 102400) 0 ∧
    (updateWM pZero cEMok cInitForest (Q.ofInt 102400) 0).1 = true ∧
    (0, 0) ∉ zoneKeys (updateWM pZero cEMok cInitForest (Q.ofInt 102400) 0).2 ∧
    lookupA ((updateWM pZero cEMok cInitForest (Q.ofInt 102400) 0).2).zone_states
      (zoneIdStr 0 0) = none := by
  exact ⟨by decide, by decide, by decide, by decide, by decide⟩

/-- C3 witness: the amended eviction statement at the concrete run. -/
theorem C3_witness :
    (0, 0) ∉ zoneKeys (updateWM pZero cEMok cInitForest (Q.ofInt 102400) 0).2 :=
  (C3_theorem pZero cEMok cInitForest (Q.ofInt 102400) 0).2 (by decide) (0, 0)
    (by decide) (by decide)

/-! ## Claim C7 - focal conversion and the resident square -/

/-- C7 (amended): a completed tick makes resident exactly the coordinates
within Chebyshev distance `max_load_distance` (= 2, not the claimed
loadRadius 1) of the focal coordinate, which is the camera position
floor-divided by `ZONE_SIZE * 32` = 10240 (not by `ZONE_SIZE` = 320).
At focal position (0, 0) this yields the 25 coordinates
`{-2..2} x {-2..2}`, not the claimed 9. -/
theorem C7_theorem (p : NoiseFn) (em : EMModel) (s : WMState) (cx cy : Q)
    (h : (updateWM p em s cx cy).1 = true) :
    ∀ c : Int × Int,
      c ∈ zoneKeys (updateWM p em s cx cy).2 ↔
        (cx.floorDivInt (ZONE_SIZE * 32) - (max_load_distance : Int) ≤ c.1 ∧
         c.1 ≤ cx.floorDivInt (ZONE_SIZE * 32) + (max_load_distance : Int) ∧
         cy.floorDivInt (ZONE_SIZE * 32) - (max_load_distance : Int) ≤ c.2 ∧
         c.2 ≤ cy.floorDivInt (ZONE_SIZE * 32) + (max_load_distance : Int)) := by
  intro c
  rw [(updateWM_success_parts p em s cx cy h).2, List.mem_toFinset]
  exact mem_squareList _ _ _ c

/-- C7 counterexample: with seed 42, `ZONE_SIZE` 320 and focal position
(0, 0), a completed tick leaves (2, 2) resident, so the resident set is
not the claimed 9 coordinates `{-1,0,1} x {-1,0,1}` (here written as
`squareList 0 0 1`). -/
theorem C7_counterexample :
    (updateWM pZero cEMok cInitForest 0 0).1 = true ∧
    (2, 2) ∈ zoneKeys (updateWM pZero cEMok cInitForest 0 0).2 ∧
    zoneKeys (updateWM pZero cEMok cInitForest 0 0).2 ≠
      (squareList 0 0 1).toFinset := by
  exact ⟨by decide, by decide, by decide⟩

/-- C7 witness: the amended residency criterion at a concrete coordinate
of the concrete run. -/
theorem C7_witness :
    (2, 2) ∈ zoneKeys (updateWM pZero cEMok cInitForest 0 0).2 :=
  ((C7_theorem pZero cEMok cInitForest 0 0 (by decide)) (2, 2)).mpr (by decide)

/-! ## Claim C4 - noise failure handling -/

/-- C4 (amended): `_get_noise_value` never returns a fallback value: a
non-faulting sample is returned unchanged, and an internal sampler fault
is caught, logged and **re-raised** as `NoiseGenerationError`, which
propagates to the caller (where `_generate_zone` turns it into a failed
coordinate). -/
theorem C4_theorem (p : NoiseFn) (seed : Nat) (x y scale : Q) :
    (∀ v, p (x * scale) (y * scale) (seed % 1024) = some v →
        getNoiseValue p seed x y scale = .ok v) ∧
    (p (x * scale) (y * scale) (seed % 1024) = none →
        getNoiseValue p seed x y scale = .error ()) := by
  constructor
  · intro v hv
    unfold getNoiseValue
    rw [hv]
  · intro hv
    unfold getNoiseValue
    rw [hv]

/-- C4 counterexample: with a sampler that faults internally, the noise
getter raises (returns the error) instead of returning a fixed fallback
value, refuting "never raises an exception to its caller". -/
theorem C4_counterexample :
    getNoiseValue pFail 42 0 0 (Q.mk' 1 10) = .error () := rfl

/-- C4 witness: a clean sample propagates unchanged. -/
theorem C4_witness :
    getNoiseValue pZero 42 0 0 (Q.mk' 1 10) = .ok 0 :=
  (C4_theorem pZero 42 0 0 (Q.mk' 1 10)).1 0 rfl

/-! ## Claim C5 - biome classification -/

/-- C5 (confirmed): biome classification samples the noise field at
`(zx * biome_scale, zy * biome_scale)` with the world seed and maps the
value through the fixed ascending thresholds 1/4, 1/2, 3/4 into
forest / tech / lava / ice; it reads nothing but the seed from the world
state, so any two states with equal seed - e.g. before and after an
eviction - classify every coordinate identically. -/
theorem C5_theorem (p : NoiseFn) (s s' : WMState) (x y : Int)
    (h : s.seed = s'.seed) :
    getBiomeType p s.seed x y = getBiomeType p s'.seed x y ∧
    ∀ v, getNoiseValue p s.seed (Q.ofInt x * biomeScale)
          (Q.ofInt y * biomeScale) = .ok v →
      getBiomeType p s.seed x y =
        .ok (if v < Q.mk' 1 4 then "forest"
             else if v < Q.mk' 1 2 then "tech"
             else if v < Q.mk' 3 4 then "lava" else "ice") := by
  refine ⟨by rw [h], ?_⟩
  intro v hv
  unfold getBiomeType biomeFromNoise
  rw [hv]
  rfl

/-- C5 witness: the coordinate (0, 0) classifies as `forest` both before
the tick that evicts it and after, at the concrete run. -/
theorem C5_witness :
    getBiomeType pZero
        ((updateWM pZero cEMok cInitForest (Q.ofInt 102400) 0).2).seed 0 0 =
      getBiomeType pZero cInitForest.seed 0 0 ∧
    getBiomeType pZero
        ((updateWM pZero cEMok cInitForest (Q.ofInt 102400) 0).2).seed 0 0 =
      .ok "forest" := by
  have hthm := C5_theorem pZero
    ((updateWM pZero cEMok cInitForest (Q.ofInt 102400) 0).2) cInitForest 0 0
    (by decide)
  exact ⟨hthm.1, (hthm.2 0 (by decide)).trans (by decide)⟩

/-! ## Claim C6 - template validation -/

/-- C6 (amended): `_validate_zone_template` accepts a template iff its
biome is non-empty and a `BIOME_SETTINGS` key, its `zone_type` is truthy,
its dimensions are positive, and every **tile** position lies in
`[0, width) x [0, height)`; the other positional lists (decorations,
enemies, loot, transitions) are not bounds-checked.  A tile at
`(width-1, height-1)` validates and a tile at `(width, 0)` is
rejected. -/
theorem C6_theorem :
    (∀ t : ZoneTemplate,
      validateZoneTemplate t = true ↔
        (t.biome ≠ "" ∧ zoneTypeTruthy t.zone_type = true ∧
         t.biome ∈ biomeSettingsKeys ∧ 0 < t.width ∧ 0 < t.height ∧
         ∀ tl ∈ t.tiles,
           0 ≤ tl.x ∧ tl.x < t.width ∧ 0 ≤ tl.y ∧ tl.y < t.height)) ∧
    validateZoneTemplate cBoundaryOkT = true ∧
    validateZoneTemplate cBoundaryBadT = false := by
  refine ⟨?_, by decide, by decide⟩
  intro t
  simp only [validateZoneTemplate, tileInBounds, Bool.and_eq_true,
    decide_eq_true_eq, List.all_eq_true, and_assoc]

/-- C6 counterexample: a template with an out-of-bounds decoration at
`(width, 0)` still validates, refuting "accepts only if every positional
list entry's (x, y) lies in bounds". -/
theorem C6_counterexample :
    validateZoneTemplate cBadDecT = true ∧
    ∃ d ∈ cBadDecT.decorations,
      ¬ (0 ≤ d.x ∧ d.x < cBadDecT.width ∧ 0 ≤ d.y ∧
         d.y < cBadDecT.height) := by
  exact ⟨by decide, by decide⟩

/-- C6 witness: the characterization applied to a concrete valid
template. -/
theorem C6_witness : validateZoneTemplate cNormT = true :=
  (C6_theorem.1 cNormT).mpr (by decide)

/-! ## Claim C8 - random template selection -/

/-- C8 (confirmed): `get_random_template` either returns a template from
exactly the requested `(biome, zone_type)` bucket, or raises - a
`ValueError` (the spec's TemplateNotFound) when the biome or zone-type
key is missing, or the `IndexError` of `random.choice` on an empty
bucket.  It never substitutes a template from another bucket, and the
error propagates to the caller. -/
theorem C8_theorem (c : Catalog) (biome zone_type : String) (g : RState) :
    (∀ t g', getRandomTemplate c biome zone_type g = (.ok t, g') →
        t ∈ catalogBucket c biome zone_type) ∧
    (catalogBucket c biome zone_type = [] →
        ∃ e, (getRandomTemplate c biome zone_type g).1 = .error e) := by
  constructor
  · intro t g' ht
    unfold getRandomTemplate at ht
    unfold catalogBucket
    cases hb : lookupA c biome with
    | none => rw [hb] at ht; simp at ht
    | some m =>
        rw [hb] at ht
        dsimp only at ht ⊢
        cases hz : lookupA m zone_type with
        | none => rw [hz] at ht; simp at ht
        | some bucket =>
            rw [hz] at ht
            dsimp only at ht ⊢
            cases hch : (randChoice bucket g).1 with
            | none => rw [hch] at ht; simp at ht
            | some t' =>
                rw [hch] at ht
                simp only [Prod.mk.injEq, Except.ok.injEq] at ht
                rw [← ht.1]
                unfold randChoice at hch
                exact List.get?_mem hch
  · intro hempty
    unfold catalogBucket at hempty
    unfold getRandomTemplate
    cases hb : lookupA c biome with
    | none => exact ⟨_, rfl⟩
    | some m =>
        rw [hb] at hempty
        dsimp only at hempty ⊢
        cases hz : lookupA m zone_type with
        | none => exact ⟨_, rfl⟩
        | some bucket =>
            rw [hz] at hempty
            dsimp only at hempty
            subst hempty
            exact ⟨"IndexError", rfl⟩

/-- C8 witness: a draw from a populated bucket yields that bucket's
template, and selection on an empty catalog raises. -/
theorem C8_witness :
    cNormT ∈ catalogBucket cCatForest "forest" "normal" ∧
    ∃ e, (getRandomTemplate ([] : Catalog) "forest" "normal" []).1 =
      .error e :=
  ⟨(C8_theorem cCatForest "forest" "normal" [0]).1 cNormT [] (by decide),
   (C8_theorem ([] : Catalog) "forest" "normal" []).2 rfl⟩

/-! ## Claim C9 - variation and template immutability -/

/-- C9 (amended): `apply_variations` returns a new derived template and
leaves the input template's scalar fields, tile list, events and
transitions unchanged - but because `decorations`, `enemies` and `loot`
are shallow `list.copy()` copies whose element objects are mutated in
place by the variation loops, after the call the input template's
decorations, enemies and loot are exactly the derived template's
(possibly varied) ones.  The catalog template is therefore *not*
read-only under variation. -/
theorem C9_theorem (t : ZoneTemplate) (s : RState) :
    (applyVariations t s).original.name = t.name ∧
    (applyVariations t s).original.biome = t.biome ∧
    (applyVariations t s).original.width = t.width ∧
    (applyVariations t s).original.height = t.height ∧
    (applyVariations t s).original.tiles = t.tiles ∧
    (applyVariations t s).original.events = t.events ∧
    (applyVariations t s).original.spawn_zone = t.spawn_zone ∧
    (applyVariations t s).original.transition_type = t.transition_type ∧
    (applyVariations t s).original.zone_type = t.zone_type ∧
    (applyVariations t s).original.transitions = t.transitions ∧
    (applyVariations t s).original.decorations =
      (applyVariations t s).derived.decorations ∧
    (applyVariations t s).original.enemies =
      (applyVariations t s).derived.enemies ∧
    (applyVariations t s).original.loot =
      (applyVariations t s).derived.loot :=
  ⟨rfl, rfl, rfl, rfl, rfl, rfl, rfl, rfl, rfl, rfl, rfl, rfl, rfl⟩

/-- C9 counterexample: for a template with one enemy and a sample stream
of zeros, the 40%-branch fires and `_generate_patrol_points` writes
patrol points into the *shared* enemy object: after `apply_variations`
the input template's enemy list differs from what it was before the
call, refuting "leaves every field of the original template unchanged". -/
theorem C9_counterexample :
    (applyVariations cVarT (List.replicate 8 0)).original.enemies ≠
      cVarT.enemies := by decide

/-! ## Claim C10 - zone building and marker registration -/

/-- C10 (amended): `build_zone` has no degraded-success path: its whole
body is inside one `try/except ... raise`, so **any** failure - including
a failing marker-entity creation or registration - is logged and
re-raised to the caller (there is no separate `ZoneBuildError` type; the
original exception propagates).  When the entity calls succeed it
returns the Zone built from the template at (x, y) under the effective
id `zone_id or template.name`, with a marker entity at `(x*32, y*32)`
carrying the biome/zone-type metadata and the `background_<biome>`
sprite key. -/
theorem C10_theorem (em : EMModel) (n : Nat) (t : ZoneTemplate)
    (x y : Int) (zid : Option String) :
    ((em.createOk = false ∨ em.addOk = false) →
      (buildZone em n t x y zid).1 = .error ()) ∧
    (em.createOk = true → em.addOk = true →
      (buildZone em n t x y zid).1 =
        .ok ({ id := match zid with
                     | none => t.name
                     | some str => if str = "" then t.name else str,
               template := t, x := x, y := y },
             { eid := n, transform := (x * 32, y * 32),
               zone_type := t.zone_type, biome := t.biome,
               image_key := "background_" ++ t.biome })) := by
  constructor
  · rintro (hc | ha)
    · unfold buildZone
      rw [hc]
      rfl
    · unfold buildZone
      rw [ha]
      cases em.createOk <;> rfl
  · intro hc ha
    unfold buildZone
    rw [hc, ha]
    rfl

/-- C10 counterexample: with marker registration (`add_entity`) failing,
`build_zone` fails instead of succeeding in degraded form. -/
theorem C10_counterexample :
    (buildZone cEMnoAdd 0 cNormT 0 0 (some "zone_0_0")).1 = .error () := by
  decide

/-- C10 witness: a successful build at a concrete input. -/
theorem C10_witness :
    (buildZone cEMok 0 cNormT 0 0 (some "z")).1 =
      .ok ({ id := "z", template := cNormT, x := 0, y := 0 },
           { eid := 0, transform := (0, 0), zone_type := some "normal",
             biome := "forest", image_key := "background_forest" }) :=
  (C10_theorem cEMok 0 cNormT 0 0 (some "z")).2 rfl rfl

/-! ## Correctness of the exact fraction type w.r.t. `ℚ`

These lemmas justify `Q`: under the positive-denominator discipline kept
by every fraction this development builds, its operations agree with
rational arithmetic, its order is the rational order, and its floors are
the rational floors. -/

theorem intFdiv_eq_floor (n d : Int) (hd : 0 < d) :
    Int.fdiv n d = ⌊(n : ℚ) / (d : ℚ)⌋ := by
  have hsum := Int.fdiv_add_fmod n d
  have hr0 : 0 ≤ Int.fmod n d := Int.fmod_nonneg' n (by omega)
  have hrd : Int.fmod n d < d := Int.fmod_lt_of_pos n hd
  have hdq : (0 : ℚ) < (d : ℚ) := by exact_mod_cast hd
  symm
  rw [Int.floor_eq_iff]
  constructor
  · rw [le_div_iff₀ hdq]
    exact_mod_cast (by nlinarith : (Int.fdiv n d) * d ≤ n)
  · rw [div_lt_iff₀ hdq]
    exact_mod_cast (by nlinarith : n < (Int.fdiv n d + 1) * d)

theorem Q.toRat_mk' (a : Int) (b : Nat) : (Q.mk' a b).toRat = (a : ℚ) / b :=
  rfl

theorem Q.toRat_ofInt (n : Int) : (Q.ofInt n).toRat = (n : ℚ) := by
  unfold Q.ofInt Q.toRat
  simp

theorem Q.toRat_add (a b : Q) (ha : a.den ≠ 0) (hb : b.den ≠ 0) :
    (a + b).toRat = a.toRat + b.toRat := by
  unfold Q.toRat
  show ((a.num * b.den + b.num * a.den : ℤ) : ℚ) /
      ((a.den * b.den : ℕ) : ℚ) = _
  have ha' : (a.den : ℚ) ≠ 0 := Nat.cast_ne_zero.mpr ha
  have hb' : (b.den : ℚ) ≠ 0 := Nat.cast_ne_zero.mpr hb
  push_cast
  field_simp

theorem Q.toRat_sub (a b : Q) (ha : a.den ≠ 0) (hb : b.den ≠ 0) :
    (a - b).toRat = a.toRat - b.toRat := by
  unfold Q.toRat
  show ((a.num * b.den - b.num * a.den : ℤ) : ℚ) /
      ((a.den * b.den : ℕ) : ℚ) = _
  have ha' : (a.den : ℚ) ≠ 0 := Nat.cast_ne_zero.mpr ha
  have hb' : (b.den : ℚ) ≠ 0 := Nat.cast_ne_zero.mpr hb
  push_cast
  field_simp
  ring

theorem Q.toRat_mul (a b : Q) : (a * b).toRat = a.toRat * b.toRat := by
  unfold Q.toRat
  show ((a.num * b.num : ℤ) : ℚ) / ((a.den * b.den : ℕ) : ℚ) = _
  push_cast
  rw [div_mul_div_comm]

theorem Q.toRat_neg (a : Q) : (-a).toRat = -a.toRat := by
  unfold Q.toRat
  show ((-a.num : ℤ) : ℚ) / ((a.den : ℕ) : ℚ) = _
  push_cast
  rw [neg_div]

theorem Q.lt_iff_toRat (a b : Q) (ha : 0 < a.den) (hb : 0 < b.den) :
    a < b ↔ a.toRat < b.toRat := by
  unfold Q.toRat
  have ha' : (0 : ℚ) < (a.den : ℚ) := by exact_mod_cast ha
  have hb' : (0 : ℚ) < (b.den : ℚ) := by exact_mod_cast hb
  rw [div_lt_div_iff₀ ha' hb']
  show a.num * (b.den : ℤ) < b.num * (a.den : ℤ) ↔ _
  exact_mod_cast Iff.rfl

theorem Q.le_iff_toRat (a b : Q) (ha : 0 < a.den) (hb : 0 < b.den) :
    a ≤ b ↔ a.toRat ≤ b.toRat := by
  unfold Q.toRat
  have ha' : (0 : ℚ) < (a.den : ℚ) := by exact_mod_cast ha
  have hb' : (0 : ℚ) < (b.den : ℚ) := by exact_mod_cast hb
  rw [div_le_div_iff₀ ha' hb']
  show a.num * (b.den : ℤ) ≤ b.num * (a.den : ℤ) ↔ _
  exact_mod_cast Iff.rfl

theorem Q.floor_eq (a : Q) (ha : 0 < a.den) : a.floor = ⌊a.toRat⌋ := by
  unfold Q.floor Q.toRat
  rw [intFdiv_eq_floor a.num (a.den : Int) (by exact_mod_cast ha)]
  norm_cast

theorem Q.floorDivInt_eq (a : Q) (b : Int) (ha : 0 < a.den) (hb : 0 < b) :
    a.floorDivInt b = ⌊a.toRat / (b : ℚ)⌋ := by
  unfold Q.floorDivInt Q.toRat
  rw [intFdiv_eq_floor a.num (b * (a.den : Int))
    (mul_pos hb (by exact_mod_cast ha))]
  rw [div_div]
  congr 1
  congr 1
  push_cast
  ring
